import Mathlib

/-!
Verification of the MindMate voice-assistant repository: a shallow
embedding in Lean 4 of the pure control-flow parts of `src/main.py` and
`src/backend/app.py`, with theorems settling the spec's claims about them.

External services (speech recognition, the chat-completion API, speech
synthesis, the audio devices) are modelled as oracle parameters: a call's
outcome is an explicit value handed to the embedded function, and the
embedding counts the calls it makes.  The filesystem is modelled as a list
of file names.  The global shutdown flag is modelled as a boolean
parameter giving its value during the call (nothing in the program ever
clears it once set).
-/

namespace MindMate

/-! ## Character classification (models of Python's `str.isspace` and
`str.isprintable`) -/

/-- Model of Python's `str.isspace` on a single character: true exactly on
CPython's whitespace set (0x09-0x0d, 0x1c-0x1f, space, NEL, NBSP, and the
Unicode space separators). -/
def pyIsSpace (c : Char) : Bool :=
  let n := c.toNat
  (9 ≤ n && n ≤ 13) || n == 32 || (28 ≤ n && n ≤ 31) || n == 0x85 || n == 0xa0 ||
  n == 0x1680 || (0x2000 ≤ n && n ≤ 0x200a) || n == 0x2028 || n == 0x2029 ||
  n == 0x202f || n == 0x205f || n == 0x3000

/-- Model of Python's `str.isprintable` on a single character: exact on
ASCII and Latin-1 and on the Unicode whitespace and format characters; rare
non-printable categories above Latin-1 are treated as printable, which no
theorem below depends on. -/
def pyIsPrintable (c : Char) : Bool :=
  let n := c.toNat
  if n == 32 then true
  else if n < 0x20 then false
  else if 0x7f ≤ n && n ≤ 0xa0 then false
  else if n == 0xad then false
  else if pyIsSpace c then false
  else if (0x200b ≤ n && n ≤ 0x200f) || (0x202a ≤ n && n ≤ 0x202e) ||
          (0x2060 ≤ n && n ≤ 0x2064) || n == 0xfeff then false
  else true

/-- The character filter of `sanitize_text` (src/main.py line 186):
`c.isprintable() or c.isspace()`. -/
def keepChar (c : Char) : Bool := pyIsPrintable c || pyIsSpace c

/-! ## Python string helpers -/

/-- Python's `str.strip()` on a character list: drop whitespace from both
ends. -/
def pyStripChars (l : List Char) : List Char :=
  ((l.dropWhile pyIsSpace).reverse.dropWhile pyIsSpace).reverse

/-- Python's `str.strip()`. -/
def pyStrip (s : String) : String := String.mk (pyStripChars s.data)

/-- Python's `s.rsplit(' ', 1)[0]`: the part of `l` strictly before its
last space character, or `l` itself when it has no space
(src/main.py line 191). -/
def rsplitSpaceFirst (l : List Char) : List Char :=
  if l.contains ' ' then ((l.reverse.dropWhile (fun c => c != ' ')).drop 1).reverse
  else l

/-- Python's `str.lower`, modelled with `Char.toLower` (exact on ASCII). -/
def pyLower (s : String) : String := String.mk (s.data.map Char.toLower)

/-- Python's substring containment `needle in hay`. -/
def isSubstr (needle : List Char) : List Char → Bool
  | [] => needle.isEmpty
  | c :: t => needle.isPrefixOf (c :: t) || isSubstr needle t

/-! ## sanitize_text (src/main.py lines 172-193) -/

/-- Core of `sanitize_text` on character lists: keep printable/whitespace
characters, strip, and when longer than `max_length` truncate to
`sanitized[:max_length].rsplit(' ', 1)[0] + "..."`. -/
def sanitize_chars (l : List Char) (max_length : Nat) : List Char :=
  if max_length < (pyStripChars (l.filter keepChar)).length then
    rsplitSpaceFirst ((pyStripChars (l.filter keepChar)).take max_length)
      ++ ['.', '.', '.']
  else pyStripChars (l.filter keepChar)

/-- `sanitize_text` (src/main.py lines 172-193) on a string argument.  The
guard `if not text or not isinstance(text, str)` returns `""` for the empty
string here; `sanitize_text_any` below covers non-string arguments. -/
def sanitize_text (text : String) (max_length : Nat := 500) : String :=
  if text = "" then ""
  else String.mk (sanitize_chars text.data max_length)

/-- A Python argument that may or may not be a string: `nonStr` stands for
any non-string value (None, a number, a list, ...). -/
inductive PyVal where
  | str (s : String)
  | nonStr
deriving DecidableEq

/-- `sanitize_text` over arbitrary Python values: the
`not isinstance(text, str)` branch returns `""`. -/
def sanitize_text_any : PyVal → String
  | .str s => sanitize_text s
  | .nonStr => ""

/-! ## validate_input (src/main.py lines 285-306) -/

/-- The "didn't catch that" validation message. -/
def didntCatchMsg : String := "I didn't catch that. Could you please repeat?"

/-- The length-rejection message of `validate_input`, naming the maximum. -/
def tooLongMsg (max_length : Nat) : String :=
  "Your message is too long. Please keep it under " ++ toString max_length ++
  " characters."

/-- `validate_input` (src/main.py lines 285-306) on a string argument:
reject empty or whitespace-only text, strip, reject text longer than
`max_length`, otherwise return the stripped text. -/
def validate_input (text : String) (max_length : Nat := 1000) : Bool × String :=
  if text = "" then (false, didntCatchMsg)
  else if pyStrip text = "" then (false, didntCatchMsg)
  else if max_length < (pyStrip text).length then (false, tooLongMsg max_length)
  else (true, pyStrip text)

/-! ## process_text (src/main.py lines 308-365)

The chat-completion service is an oracle `Nat → ChatOutcome` giving the
outcome of the i-th `openai.ChatCompletion.create` call of this
`process_text` invocation. -/

/-- Outcome of one chat-completion call.  `otherError` covers any exception
reaching the generic `except Exception` handler, including the `ValueError`
raised when `response.choices` is empty. -/
inductive ChatOutcome where
  | success (reply : String)
  | rateLimit
  | apiError
  | otherError
deriving DecidableEq

/-- The rate-limit exhaustion message (src/main.py line 349). -/
def exhaustMsg : String := "I'm getting too many requests. Please try again later."

/-- The non-retried API-error message (src/main.py line 357). -/
def apiErrorMsg : String :=
  "I'm having trouble connecting to the service. Please try again later."

/-- The generic-exception exhaustion message (src/main.py line 363). -/
def unexpectedErrMsg : String :=
  "I'm sorry, I encountered an error processing your request. Please try again later."

/-- The message returned when the while loop is never entered or exits by
its guard (src/main.py line 365). -/
def troubleMsg : String :=
  "I'm having trouble processing your request. Please try again later."

/-- Result of one `process_text` call: the returned string, the number of
chat-completion calls made, and the list of backoff delays slept (in
seconds, in order). -/
structure PTResult where
  result : String
  calls : Nat
  sleeps : List Nat
deriving DecidableEq

/-- The retry loop of `process_text` (src/main.py lines 328-365).
`remaining` is `max_retries - retry_count`, so the loop guard
`retry_count < max_retries` is `remaining > 0`; `ci` indexes the next
oracle call and `d` is the current backoff delay.  On a rate limit the code
increments `retry_count`, returns `exhaustMsg` when it reaches
`max_retries`, otherwise sleeps `d` and doubles it capped at 10; on an
`APIError` it returns at once; on any other exception it increments
`retry_count` without sleeping. -/
def ptLoop (oracle : Nat → ChatOutcome) (shutdown : Bool) :
    Nat → Nat → Nat → PTResult
  | 0, _, _ => ⟨troubleMsg, 0, []⟩
  | remaining + 1, ci, d =>
    if shutdown then ⟨troubleMsg, 0, []⟩
    else
      match oracle ci with
      | .success r => ⟨pyStrip r, 1, []⟩
      | .apiError => ⟨apiErrorMsg, 1, []⟩
      | .rateLimit =>
        if remaining = 0 then ⟨exhaustMsg, 1, []⟩
        else
          let rest := ptLoop oracle shutdown remaining (ci + 1) (min (d * 2) 10)
          ⟨rest.result, rest.calls + 1, d :: rest.sleeps⟩
      | .otherError =>
        if remaining = 0 then ⟨unexpectedErrMsg, 1, []⟩
        else
          let rest := ptLoop oracle shutdown remaining (ci + 1) d
          ⟨rest.result, rest.calls + 1, rest.sleeps⟩

/-- `process_text` (src/main.py lines 308-365): validate the input, then
run the retry loop.  `shutdown` is the value of the global shutdown flag
during the call. -/
def process_text (text : String) (oracle : Nat → ChatOutcome) (shutdown : Bool)
    (max_retries : Nat := 3) (initial_delay : Nat := 1) : PTResult :=
  match validate_input text with
  | (false, msg) => ⟨msg, 0, []⟩
  | (true, _) => ptLoop oracle shutdown max_retries 0 initial_delay

/-- The backoff-delay sequence slept over `n` consecutive retried rate
limits, starting from delay `d`: each next delay is `min (d * 2) 10`. -/
def delaySeq (d : Nat) : Nat → List Nat
  | 0 => []
  | n + 1 => d :: delaySeq (min (d * 2) 10) n

/-! ## Filesystem model, speak_text (src/main.py lines 195-283) and the
server text_to_speech (src/backend/app.py lines 71-84)

The filesystem is the list of existing file names; creating a file conses
its name, `os.unlink` erases it.  The temp-file name handed to each
function models `tempfile.mktemp` / `NamedTemporaryFile`. -/

/-- Outcome of `tts.save(temp_file)` in `speak_text`: success writes a
non-empty file; `okEmpty` writes an empty file (the size check then raises
`IOError`); a raised exception may or may not have created the file. -/
inductive SaveOutcome where
  | ok
  | okEmpty
  | failCreated
  | failNoFile
deriving DecidableEq

/-- Outcome of `sf.read(temp_file)`. -/
inductive ReadOutcome where
  | ok
  | fail
deriving DecidableEq

/-- Outcome of playback: `sounddevice` succeeds, or it fails and the
platform fallback player succeeds, or both fail (the text is printed). -/
inductive PlayOutcome where
  | sdOk
  | sdFailFallbackOk
  | sdFailFallbackFail
deriving DecidableEq

/-- The `finally` block of `speak_text` (src/main.py lines 275-281):
`if temp_file and os.path.exists(temp_file): os.unlink(temp_file)`. -/
def cleanupTemp (fs : List String) (tmp : String) : List String :=
  if fs.contains tmp then fs.erase tmp else fs

/-- `speak_text` (src/main.py lines 195-283) as a filesystem transformer.
Returns `(success, final filesystem)`.  An empty sanitized text returns
before any temp file is made; otherwise the body runs under
try/except/finally, and the `finally` block removes the temp file when it
exists.  Playback failures are caught inside the body (fallback player,
then printing), so they reach the same `finally`. -/
def speak_text (text : String) (fs0 : List String) (tmp : String)
    (save : SaveOutcome) (rd : ReadOutcome) (play : PlayOutcome) :
    Bool × List String :=
  if sanitize_text text = "" then (false, fs0)
  else
    match save with
    | .failNoFile => (false, cleanupTemp fs0 tmp)
    | .failCreated => (false, cleanupTemp (tmp :: fs0) tmp)
    | .okEmpty => (false, cleanupTemp (tmp :: fs0) tmp)
    | .ok =>
      match rd with
      | .fail => (false, cleanupTemp (tmp :: fs0) tmp)
      | .ok =>
        match play with
        | .sdOk => (true, cleanupTemp (tmp :: fs0) tmp)
        | .sdFailFallbackOk => (true, cleanupTemp (tmp :: fs0) tmp)
        | .sdFailFallbackFail => (false, cleanupTemp (tmp :: fs0) tmp)

/-- Outcome of the body of the server `text_to_speech` after
`NamedTemporaryFile(delete=False)` has created the file: the synthesis and
read succeed giving base64 audio, or some step raises (caught, returning
None). -/
inductive TtsOutcome where
  | ok (audioB64 : String)
  | fail
deriving DecidableEq

/-- The server `text_to_speech` (src/backend/app.py lines 71-84) as a
filesystem transformer.  `NamedTemporaryFile(suffix=".mp3", delete=False)`
creates the file on entry; no path of the function removes it. -/
def text_to_speech (fs0 : List String) (tmp : String) (outcome : TtsOutcome) :
    Option String × List String :=
  let fs1 := tmp :: fs0
  match outcome with
  | .ok b => (some b, fs1)
  | .fail => (none, fs1)

/-! ## WebSocket endpoint (src/backend/app.py lines 120-195)

One iteration of the receive loop, for one channel (channels are named by
Nat).  `process_text_with_openai` and `text_to_speech` catch all their own
exceptions, so they are total oracles here; sends are assumed to succeed. -/

/-- A parsed client message: the `type`, `text` and `audio` fields of the
JSON object (each possibly absent). -/
structure MsgData where
  type_ : Option String
  text : Option String
  audio : Option String
deriving DecidableEq

/-- What `websocket.receive_text()` plus `json.loads` yields: a parsed
message, a JSON parse error (an exception reaching the outer handler), or a
`WebSocketDisconnect`. -/
inductive WsEvent where
  | msg (m : MsgData)
  | invalidJson
  | disconnect
deriving DecidableEq

/-- Outcome of the audio-processing block (src/backend/app.py lines
139-172): transcription pipeline succeeds with a transcript, or some step
raises with message `err` (`calledTranscribe` records whether the failure
happened at or after the transcription call). -/
inductive AudioOutcome where
  | ok (transcript : String)
  | fail (err : String) (calledTranscribe : Bool)
deriving DecidableEq

/-- Server-side state visible to the claims: the connection list of the
`ConnectionManager` and whether this channel is still open. -/
structure WsState where
  connections : List Nat
  isOpen : Bool
deriving DecidableEq

/-- A JSON message sent to the client, by shape. -/
inductive OutMsg where
  | errorMsg (text : String)
  | audioResponse (text : String) (audio : Option String)
  | textResponse (text : String) (audio : Option String)
deriving DecidableEq

/-- Result of processing one received event: the new state, the messages
sent on the channel, and how many transcription calls were made. -/
structure WsStepResult where
  state : WsState
  sent : List OutMsg
  transcribeCalls : Nat
deriving DecidableEq

/-- One iteration of `websocket_endpoint`'s receive loop
(src/backend/app.py lines 120-195) for channel `ch`.
`chatReply` and `tts` are the (self-catching, total) oracles for
`process_text_with_openai` and `text_to_speech`.
A `WebSocketDisconnect` runs `manager.disconnect` (erase from the list);
any other exception escaping the loop body (here: a JSON parse error)
reaches the outer `except Exception`, which closes the socket without
erasing the channel and without sending anything. -/
def websocket_step (ch : Nat) (st : WsState) (ev : WsEvent)
    (audioOut : AudioOutcome) (chatReply : String → String)
    (tts : String → Option String) : WsStepResult :=
  match ev with
  | .disconnect => ⟨⟨st.connections.erase ch, false⟩, [], 0⟩
  | .invalidJson => ⟨⟨st.connections, false⟩, [], 0⟩
  | .msg m =>
    if m.type_ = some "audio" then
      match m.audio with
      | none => ⟨st, [.errorMsg "No audio data received"], 0⟩
      | some a =>
        if a = "" then ⟨st, [.errorMsg "No audio data received"], 0⟩
        else
          match audioOut with
          | .ok t =>
            let reply := chatReply t
            ⟨st, [.audioResponse reply (tts reply)], 1⟩
          | .fail e called =>
            ⟨st, [.errorMsg ("Error processing audio: " ++ e)],
              if called then 1 else 0⟩
    else if m.type_ = some "text" then
      let reply := chatReply (m.text.getD "")
      ⟨st, [.textResponse reply (tts reply)], 0⟩
    else ⟨st, [], 0⟩

/-! ## CLI conversation loop (src/main.py lines 380-483)

The loop body, per turn: listen, check for an exit phrase, process and
speak.  `listen_to_speech` catches its own exceptions and returns text or
None, `process_text` and `speak_text` return normally, so the no-signal,
no-interrupt executions of the loop are the runs modelled here.  Events
record listening attempts, spoken utterances and chat-service calls. -/

/-- The exit words of src/main.py line 426. -/
def exitWords : List String := ["exit", "quit", "bye", "goodbye"]

/-- `any(exit_word in user_input.lower() for exit_word in ...)`. -/
def hasExitPhrase (s : String) : Bool :=
  exitWords.any (fun w => isSubstr w.data (pyLower s).data)

/-- The farewell utterance (src/main.py line 428). -/
def farewellMsg : String := "Goodbye! Have a great day!"

/-- An observable event of the CLI loop. -/
inductive Ev where
  | listen
  | speak (s : String)
  | genCall
deriving DecidableEq

/-- One iteration of the `while conversation_active` body (src/main.py
lines 414-457), without exceptions or shutdown: given the listening result
`input` and the `process_text` result `reply` for this turn and the current
`consecutive_errors` count, produce the events of the turn, whether the
loop continues, and the new error count. -/
def cli_turn (input : Option String) (reply : String) (errs : Nat) :
    List Ev × Bool × Nat :=
  match input with
  | some s =>
    if s ≠ "" && hasExitPhrase s then
      ([Ev.listen, Ev.speak farewellMsg], false, errs)
    else if s ≠ "" then
      ([Ev.listen, Ev.genCall,
        Ev.speak (if reply ≠ "" then reply
          else "I'm sorry, I couldn't generate a response. Please try again.")],
       true, 0)
    else
      let errs' := errs + 1
      let evs := [Ev.listen, Ev.speak didntCatchMsg]
      if 3 ≤ errs' then
        (evs ++ [Ev.speak "I'm having trouble understanding you. Please check your microphone and try again."],
         true, 0)
      else (evs, true, errs')
  | none =>
    let errs' := errs + 1
    let evs := [Ev.listen, Ev.speak didntCatchMsg]
    if 3 ≤ errs' then
      (evs ++ [Ev.speak "I'm having trouble understanding you. Please check your microphone and try again."],
       true, 0)
    else (evs, true, errs')

/-- The CLI conversation loop from an arbitrary turn: `inputs i` is the
listening result of turn `i`, `replies i` the chat reply of turn `i`,
`fuel` bounds the number of remaining iterations observed, `errs` is the
current `consecutive_errors`.  Returns the trace of events. -/
def cli_loop (inputs : Nat → Option String) (replies : Nat → String) :
    Nat → Nat → Nat → List Ev
  | 0, _, _ => []
  | fuel + 1, turn, errs =>
    let step := cli_turn (inputs turn) (replies turn) errs
    if step.2.1 then step.1 ++ cli_loop inputs replies fuel (turn + 1) step.2.2
    else step.1

/-! ## Helper lemmas -/

theorem pyStripChars_eq_rdropWhile (l : List Char) :
    pyStripChars l = List.rdropWhile pyIsSpace (l.dropWhile pyIsSpace) := rfl

theorem mem_pyStripChars {l : List Char} {x : Char} (h : x ∈ pyStripChars l) :
    x ∈ l := by
  rw [pyStripChars_eq_rdropWhile] at h
  exact (List.dropWhile_suffix pyIsSpace).sublist.subset
    ((List.rdropWhile_prefix _ _).sublist.subset h)

theorem dropWhile_pyStripChars (l : List Char) :
    (pyStripChars l).dropWhile pyIsSpace = pyStripChars l := by
  rw [pyStripChars_eq_rdropWhile]
  obtain ⟨t, ht⟩ := List.rdropWhile_prefix pyIsSpace (l.dropWhile pyIsSpace)
  cases hm : List.rdropWhile pyIsSpace (l.dropWhile pyIsSpace) with
  | nil => simp
  | cons a m' =>
    have hX : (l.dropWhile pyIsSpace).dropWhile pyIsSpace = l.dropWhile pyIsSpace :=
      List.dropWhile_idempotent pyIsSpace l
    rw [hm] at ht
    have ha : ¬ pyIsSpace a := by
      intro hpa
      rw [← ht, List.cons_append, List.dropWhile_cons_of_pos hpa] at hX
      have hlen := congrArg List.length hX
      have hle : ((m' ++ t).dropWhile pyIsSpace).length ≤ (m' ++ t).length :=
        (List.dropWhile_sublist _).length_le
      simp only [List.length_cons, List.length_append] at hlen hle
      omega
    exact List.dropWhile_cons_of_neg ha

theorem rdropWhile_pyStripChars (l : List Char) :
    List.rdropWhile pyIsSpace (pyStripChars l) = pyStripChars l := by
  rw [pyStripChars_eq_rdropWhile, List.rdropWhile_idempotent]

theorem pyStripChars_idempotent (l : List Char) :
    pyStripChars (pyStripChars l) = pyStripChars l := by
  conv_lhs => rw [pyStripChars_eq_rdropWhile]
  rw [dropWhile_pyStripChars, rdropWhile_pyStripChars]

theorem filter_pyStripChars_filter (l : List Char) :
    (pyStripChars (l.filter keepChar)).filter keepChar
      = pyStripChars (l.filter keepChar) := by
  apply List.filter_eq_self.mpr
  intro x hx
  exact (List.mem_filter.mp (mem_pyStripChars hx)).2

theorem rsplitSpaceFirst_isPrefixOf (m : List Char) :
    rsplitSpaceFirst m <+: m := by
  unfold rsplitSpaceFirst
  split
  · have h1 : (m.reverse.dropWhile (fun c => c != ' ')) <:+ m.reverse :=
      List.dropWhile_suffix _
    have h2 : ((m.reverse.dropWhile (fun c => c != ' ')).drop 1) <:+
        (m.reverse.dropWhile (fun c => c != ' ')) := List.drop_suffix _ _
    have h3 := h2.trans h1
    have h4 := List.reverse_prefix.mpr h3
    simpa using h4
  · exact List.prefix_refl m

theorem mem_rsplitSpaceFirst {m : List Char} {x : Char}
    (h : x ∈ rsplitSpaceFirst m) : x ∈ m :=
  (rsplitSpaceFirst_isPrefixOf m).sublist.subset h

theorem not_space_head_of_dropWhile_fix {a : Char} {t : List Char}
    (h : (a :: t).dropWhile pyIsSpace = a :: t) : ¬ pyIsSpace a := by
  intro hp
  rw [List.dropWhile_cons_of_pos hp] at h
  have hlen := congrArg List.length h
  have hle : (t.dropWhile pyIsSpace).length ≤ t.length :=
    (List.dropWhile_sublist _).length_le
  simp only [List.length_cons] at hlen
  omega

theorem pyStripChars_head_not_space {l : List Char} {a : Char} {t : List Char}
    (h : pyStripChars l = a :: t) : ¬ pyIsSpace a := by
  apply not_space_head_of_dropWhile_fix (t := t)
  rw [← h]
  exact dropWhile_pyStripChars l

theorem keepChar_dot : keepChar '.' = true := by decide

theorem sanitize_chars_mem {l : List Char} {n : Nat} {x : Char}
    (h : x ∈ sanitize_chars l n) : keepChar x = true := by
  unfold sanitize_chars at h
  split at h
  · rcases List.mem_append.mp h with h1 | h1
    · exact (List.mem_filter.mp
        (mem_pyStripChars
          ((List.take_sublist _ _).subset (mem_rsplitSpaceFirst h1)))).2
    · have hx : x = '.' := by simpa using h1
      rw [hx]; exact keepChar_dot
  · exact (List.mem_filter.mp (mem_pyStripChars h)).2

theorem sanitize_chars_stripped (l : List Char) (n : Nat) :
    pyStripChars (sanitize_chars l n) = sanitize_chars l n := by
  unfold sanitize_chars
  split
  · next hlen =>
    set s2 := pyStripChars (l.filter keepChar) with hs2
    have hdot : ¬ pyIsSpace '.' := by decide
    have hr : List.rdropWhile pyIsSpace
        (rsplitSpaceFirst (s2.take n) ++ ['.', '.', '.'])
        = rsplitSpaceFirst (s2.take n) ++ ['.', '.', '.'] := by
      have : rsplitSpaceFirst (s2.take n) ++ ['.', '.', '.']
          = (rsplitSpaceFirst (s2.take n) ++ ['.', '.']) ++ ['.'] := by
        simp [List.append_assoc]
      rw [this, List.rdropWhile_concat_neg _ _ _ hdot, ← this]
    have hd : (rsplitSpaceFirst (s2.take n) ++ ['.', '.', '.']).dropWhile pyIsSpace
        = rsplitSpaceFirst (s2.take n) ++ ['.', '.', '.'] := by
      cases hsp : rsplitSpaceFirst (s2.take n) with
      | nil => simp [List.dropWhile_cons_of_neg hdot]
      | cons c rest =>
        have hcnot : ¬ pyIsSpace c := by
          cases hs2c : s2 with
          | nil => rw [hs2c] at hlen; simp at hlen
          | cons d tl =>
            cases n with
            | zero =>
              rw [hs2c] at hsp
              simp [rsplitSpaceFirst] at hsp
            | succ n' =>
              have htake : s2.take (n' + 1) = d :: tl.take n' := by
                rw [hs2c]; rfl
              have hpre := rsplitSpaceFirst_isPrefixOf (s2.take (n' + 1))
              rw [hsp, htake] at hpre
              obtain ⟨u, hu⟩ := hpre
              have hcd : c = d := by
                have := congrArg (List.head? ·) hu
                simpa using this
              rw [hcd]
              exact pyStripChars_head_not_space (hs2.symm.trans hs2c)
        rw [List.cons_append]
        exact List.dropWhile_cons_of_neg hcnot
    rw [pyStripChars_eq_rdropWhile, hd, hr]
  · exact pyStripChars_idempotent _

theorem string_mk_eq_empty_iff (t : List Char) : (String.mk t = "") ↔ t = [] := by
  simp [String.ext_iff]

/-! ## Claim theorems -/

set_option maxRecDepth 10000 in
/-- C3, counterexample: `sanitize_text` is not idempotent.  On the
501-character string of 499 `a`s followed by `" b"`, one application
truncates to 502 characters (499 `a`s and `"..."`), which a second
application truncates again, to 503 characters. -/
theorem C3_counterexample :
    sanitize_text (sanitize_text (String.mk (List.replicate 499 'a' ++ [' ', 'b'])))
      ≠ sanitize_text (String.mk (List.replicate 499 'a' ++ [' ', 'b'])) := by
  decide

/-- C3, amended: applying `sanitize_text` twice yields the same result as
applying it once, provided the filtered and stripped text is within the
500-character limit, so that no truncation occurs.  (When truncation
occurs the two can differ, see the counterexample.) -/
theorem C3_amended_idempotent (s : String)
    (h : (pyStripChars (s.data.filter keepChar)).length ≤ 500) :
    sanitize_text (sanitize_text s) = sanitize_text s := by
  by_cases hs : s = ""
  · rw [hs]; rfl
  · have hnotrunc : ¬ (500 < (pyStripChars (s.data.filter keepChar)).length) := by
      omega
    have h1 : sanitize_text s = String.mk (pyStripChars (s.data.filter keepChar)) := by
      rw [sanitize_text, if_neg hs, sanitize_chars, if_neg hnotrunc]
    rw [h1]
    by_cases ht : pyStripChars (s.data.filter keepChar) = []
    · rw [ht]; rfl
    · have hne : String.mk (pyStripChars (s.data.filter keepChar)) ≠ "" :=
        fun hcontra => ht ((string_mk_eq_empty_iff _).mp hcontra)
      rw [sanitize_text, if_neg hne]
      have hdata : (String.mk (pyStripChars (s.data.filter keepChar))).data
          = pyStripChars (s.data.filter keepChar) := rfl
      rw [hdata, sanitize_chars, filter_pyStripChars_filter,
        pyStripChars_idempotent, if_neg hnotrunc]

/-- C3, witness for the amended theorem at the concrete input `"hello"`. -/
theorem C3_amended_idempotent_witness :
    (pyStripChars (("hello" : String).data.filter keepChar)).length ≤ 500 ∧
      sanitize_text (sanitize_text "hello") = sanitize_text "hello" :=
  ⟨by decide, C3_amended_idempotent "hello" (by decide)⟩

/-- C10: `sanitize_text` is total over all Python values (non-strings map
to `""`, as does the empty string), and its result consists only of
printable-or-whitespace characters with no leading or trailing whitespace
(stripping it again changes nothing). -/
theorem C10_sanitize_shape (v : PyVal) :
    (sanitize_text_any PyVal.nonStr = "" ∧ sanitize_text_any (PyVal.str "") = "") ∧
    (∀ c, c ∈ (sanitize_text_any v).data → keepChar c = true) ∧
    pyStripChars (sanitize_text_any v).data = (sanitize_text_any v).data := by
  refine ⟨⟨rfl, rfl⟩, ?_, ?_⟩
  · intro c hc
    cases v with
    | nonStr => simp [sanitize_text_any] at hc
    | str s =>
      by_cases hs : s = ""
      · rw [hs] at hc; simp [sanitize_text_any, sanitize_text] at hc
      · rw [sanitize_text_any, sanitize_text, if_neg hs] at hc
        exact sanitize_chars_mem hc
  · cases v with
    | nonStr => rfl
    | str s =>
      by_cases hs : s = ""
      · rw [hs]; rfl
      · rw [sanitize_text_any, sanitize_text, if_neg hs]
        exact sanitize_chars_stripped s.data 500

/-- C10, witness at the concrete input `" a "` (and the non-string /
empty-string cases). -/
theorem C10_sanitize_shape_witness :
    (sanitize_text_any PyVal.nonStr = "" ∧ sanitize_text_any (PyVal.str "") = "") ∧
    keepChar 'a' = true ∧
    pyStripChars (sanitize_text_any (PyVal.str " a ")).data
      = (sanitize_text_any (PyVal.str " a ")).data :=
  ⟨(C10_sanitize_shape (PyVal.str " a ")).1,
   (C10_sanitize_shape (PyVal.str " a ")).2.1 'a' (by decide),
   (C10_sanitize_shape (PyVal.str " a ")).2.2⟩

theorem process_text_valid (text : String) (oracle : Nat → ChatOutcome)
    (shutdown : Bool) (mr d : Nat) (h : (validate_input text).1 = true) :
    process_text text oracle shutdown mr d = ptLoop oracle shutdown mr 0 d := by
  unfold process_text
  rcases hveq : validate_input text with ⟨b, t⟩
  rw [hveq] at h
  cases b
  · simp at h
  · rfl

theorem ptLoop_rl_then_success (oracle : Nat → ChatOutcome) (r : String) :
    ∀ (N rem ci d : Nat), N < rem →
      (∀ i, i < N → oracle (ci + i) = ChatOutcome.rateLimit) →
      oracle (ci + N) = ChatOutcome.success r →
      ptLoop oracle false rem ci d = ⟨pyStrip r, N + 1, delaySeq d N⟩ := by
  intro N
  induction N with
  | zero =>
    intro rem ci d hlt hrl hsucc
    cases rem with
    | zero => omega
    | succ rem' =>
      rw [Nat.add_zero] at hsucc
      simp [ptLoop, hsucc, delaySeq]
  | succ N ih =>
    intro rem ci d hlt hrl hsucc
    cases rem with
    | zero => omega
    | succ rem' =>
      have h0 : oracle ci = ChatOutcome.rateLimit := by
        have h := hrl 0 (by omega)
        rwa [Nat.add_zero] at h
      have hrem' : rem' ≠ 0 := by omega
      have hrest := ih rem' (ci + 1) (min (d * 2) 10) (by omega)
        (fun i hi => by
          have h := hrl (i + 1) (by omega)
          convert h using 2
          omega)
        (by
          convert hsucc using 2
          omega)
      simp [ptLoop, h0, hrem', hrest, delaySeq]

theorem ptLoop_rl_exhaust (oracle : Nat → ChatOutcome) :
    ∀ (rem ci d : Nat), 0 < rem →
      (∀ i, i < rem → oracle (ci + i) = ChatOutcome.rateLimit) →
      ptLoop oracle false rem ci d = ⟨exhaustMsg, rem, delaySeq d (rem - 1)⟩ := by
  intro rem
  induction rem with
  | zero => omega
  | succ rem' ih =>
    intro ci d _ hrl
    have h0 : oracle ci = ChatOutcome.rateLimit := by
      have h := hrl 0 (by omega)
      rwa [Nat.add_zero] at h
    by_cases hr0 : rem' = 0
    · subst hr0
      simp [ptLoop, h0, delaySeq]
    · have hrest := ih (ci + 1) (min (d * 2) 10) (Nat.pos_of_ne_zero hr0)
        (fun i hi => by
          have h := hrl (i + 1) (by omega)
          convert h using 2
          omega)
      have hstep : ptLoop oracle false (rem' + 1) ci d
          = ⟨(ptLoop oracle false rem' (ci + 1) (min (d * 2) 10)).result,
             (ptLoop oracle false rem' (ci + 1) (min (d * 2) 10)).calls + 1,
             d :: (ptLoop oracle false rem' (ci + 1) (min (d * 2) 10)).sleeps⟩ := by
        simp [ptLoop, h0, hr0]
      rw [hstep, hrest]
      have hds : delaySeq d rem' = d :: delaySeq (min (d * 2) 10) (rem' - 1) := by
        cases rem' with
        | zero => exact absurd rfl hr0
        | succ k => simp [delaySeq]
      simp [hds]

/-- C4: with the shutdown flag clear and a valid input text, a run of `N`
consecutive rate-limit responses followed by a success (with
`N < max_retries`) makes exactly `N + 1` chat-completion calls (`N`
retries) and returns the successful (stripped) reply; rate-limit responses
on all of the first `max_retries` calls make exactly `max_retries` calls,
no more, and return the fixed exhaustion message. -/
theorem C4_retry_counts (text : String) (oracle : Nat → ChatOutcome)
    (mr d N : Nat) (r : String) (hvalid : (validate_input text).1 = true) :
    ((∀ i, i < N → oracle i = ChatOutcome.rateLimit) →
      oracle N = ChatOutcome.success r → N < mr →
      process_text text oracle false mr d = ⟨pyStrip r, N + 1, delaySeq d N⟩) ∧
    ((∀ i, i < mr → oracle i = ChatOutcome.rateLimit) → 0 < mr →
      process_text text oracle false mr d = ⟨exhaustMsg, mr, delaySeq d (mr - 1)⟩) := by
  constructor
  · intro hrl hsucc hlt
    rw [process_text_valid text oracle false mr d hvalid]
    exact ptLoop_rl_then_success oracle r N mr 0 d hlt
      (fun i hi => by simpa using hrl i hi) (by simpa using hsucc)
  · intro hrl hpos
    rw [process_text_valid text oracle false mr d hvalid]
    exact ptLoop_rl_exhaust oracle mr 0 d hpos (fun i hi => by simpa using hrl i hi)

/-- C4, witness: with default configuration (`max_retries = 3`,
`initial_delay = 1`), one rate limit followed by a success gives two calls
and the reply; three rate limits give three calls and the exhaustion
message. -/
theorem C4_retry_counts_witness :
    process_text "hello"
        (fun i => if i < 1 then ChatOutcome.rateLimit else ChatOutcome.success "hi")
        false 3 1 = ⟨"hi", 2, [1]⟩ ∧
    process_text "hello" (fun _ => ChatOutcome.rateLimit) false 3 1
        = ⟨exhaustMsg, 3, [1, 2]⟩ := by
  constructor
  · exact ((C4_retry_counts "hello"
      (fun i => if i < 1 then ChatOutcome.rateLimit else ChatOutcome.success "hi")
      3 1 1 "hi" (by decide)).1
      (fun i hi => by simp [hi]) (by decide) (by omega)).trans (by decide)
  · exact ((C4_retry_counts "hello" (fun _ => ChatOutcome.rateLimit)
      3 1 0 "" (by decide)).2
      (fun i _ => rfl) (by omega)).trans (by decide)

theorem ptLoop_sleeps_spec (oracle : Nat → ChatOutcome) :
    ∀ (rem ci d : Nat), d ≤ 10 →
      (∀ x ∈ (ptLoop oracle false rem ci d).sleeps, x ≤ 10) ∧
      List.Chain' (· ≤ ·) (ptLoop oracle false rem ci d).sleeps ∧
      (∀ x, (ptLoop oracle false rem ci d).sleeps.head? = some x → x = d) := by
  intro rem
  induction rem with
  | zero => intro ci d _; simp [ptLoop]
  | succ rem' ih =>
    intro ci d hd
    cases hoc : oracle ci with
    | success r => simp [ptLoop, hoc]
    | apiError => simp [ptLoop, hoc]
    | rateLimit =>
      by_cases hr0 : rem' = 0
      · simp [ptLoop, hoc, hr0]
      · have hd' : min (d * 2) 10 ≤ 10 := Nat.min_le_right _ _
        obtain ⟨hb, hc, hh⟩ := ih (ci + 1) (min (d * 2) 10) hd'
        have hgoal : (ptLoop oracle false (rem' + 1) ci d).sleeps
            = d :: (ptLoop oracle false rem' (ci + 1) (min (d * 2) 10)).sleeps := by
          simp [ptLoop, hoc, hr0]
        rw [hgoal]
        refine ⟨?_, ?_, ?_⟩
        · intro x hx
          rcases List.mem_cons.mp hx with h | h
          · omega
          · exact hb x h
        · refine List.chain'_cons'.mpr ⟨?_, hc⟩
          intro y hy
          have hy' := hh y (Option.mem_def.mp hy)
          have : d ≤ min (d * 2) 10 := Nat.le_min.mpr ⟨by omega, hd⟩
          omega
        · intro x hx
          simp at hx
          omega
    | otherError =>
      by_cases hr0 : rem' = 0
      · simp [ptLoop, hoc, hr0]
      · have hgoal : (ptLoop oracle false (rem' + 1) ci d).sleeps
            = (ptLoop oracle false rem' (ci + 1) d).sleeps := by
          simp [ptLoop, hoc, hr0]
        rw [hgoal]
        exact ih (ci + 1) d hd

theorem ptLoop_shutdown_sleeps (oracle : Nat → ChatOutcome) (rem ci d : Nat) :
    (ptLoop oracle true rem ci d).sleeps = [] := by
  cases rem with
  | zero => rfl
  | succ rem' => simp [ptLoop]

/-- C5, counterexample: with `initial_delay = 20` (a configured initial
delay above the 10-second cap), the delay sequence slept across repeated
rate limits is `[20, 10]`: it is strictly decreasing and its first element
exceeds the maximum delay. -/
theorem C5_counterexample :
    (process_text "hello" (fun _ => ChatOutcome.rateLimit) false 3 20).sleeps
        = [20, 10] ∧
    ¬ List.Chain' (· ≤ ·)
        (process_text "hello" (fun _ => ChatOutcome.rateLimit) false 3 20).sleeps ∧
    ¬ (∀ x ∈ (process_text "hello" (fun _ => ChatOutcome.rateLimit) false 3 20).sleeps,
        x ≤ 10) := by
  have hs : (process_text "hello" (fun _ => ChatOutcome.rateLimit) false 3 20).sleeps
      = [20, 10] := by decide
  refine ⟨hs, ?_, ?_⟩
  · rw [hs]
    intro h
    have h1 := (List.chain'_cons.mp h).1
    omega
  · rw [hs]
    intro hall
    have h20 := hall 20 (by decide)
    omega

/-- C5, amended: provided the configured initial delay is at most the
maximum delay of 10 seconds (as the default of 1 is), the sequence of
backoff delays slept in one `process_text` call is non-decreasing, starts
at the initial delay, and never exceeds 10. -/
theorem C5_amended_backoff (text : String) (oracle : Nat → ChatOutcome)
    (shutdown : Bool) (mr initial_delay : Nat) (h10 : initial_delay ≤ 10) :
    (∀ x ∈ (process_text text oracle shutdown mr initial_delay).sleeps, x ≤ 10) ∧
    List.Chain' (· ≤ ·) (process_text text oracle shutdown mr initial_delay).sleeps ∧
    (∀ x, (process_text text oracle shutdown mr initial_delay).sleeps.head? = some x →
      x = initial_delay) := by
  unfold process_text
  rcases hveq : validate_input text with ⟨b, t⟩
  cases b
  · simp
  · cases shutdown
    · exact ptLoop_sleeps_spec oracle mr 0 initial_delay h10
    · rw [ptLoop_shutdown_sleeps]
      simp

/-- C5, witness for the amended theorem: the default initial delay 1 with
two retried rate limits sleeps `[1, 2]`, non-decreasing, capped, starting
at 1. -/
theorem C5_amended_backoff_witness :
    (1 : Nat) ≤ 10 ∧
    (∀ x ∈ (process_text "hello" (fun _ => ChatOutcome.rateLimit) false 3 1).sleeps,
      x ≤ 10) ∧
    List.Chain' (· ≤ ·)
      (process_text "hello" (fun _ => ChatOutcome.rateLimit) false 3 1).sleeps :=
  ⟨by omega,
   (C5_amended_backoff "hello" (fun _ => ChatOutcome.rateLimit) false 3 1 (by omega)).1,
   (C5_amended_backoff "hello" (fun _ => ChatOutcome.rateLimit) false 3 1 (by omega)).2.1⟩

set_option maxRecDepth 100000 in
/-- C6, counterexample: the input of one leading space followed by 1000
`a`s has 1001 characters, strictly more than the configured maximum of
1000, yet `process_text` does not reject it: `validate_input` strips
whitespace before measuring, so the call reaches the chat-completion
service (one call) and returns its reply, not the length message. -/
theorem C6_counterexample :
    1000 < (String.mk (' ' :: List.replicate 1000 'a')).length ∧
    (process_text (String.mk (' ' :: List.replicate 1000 'a'))
        (fun _ => ChatOutcome.success "ok") false).calls = 1 ∧
    (process_text (String.mk (' ' :: List.replicate 1000 'a'))
        (fun _ => ChatOutcome.success "ok") false).result ≠ tooLongMsg 1000 := by
  refine ⟨by decide, by decide, ?_⟩
  intro h
  have h2 : (process_text (String.mk (' ' :: List.replicate 1000 'a'))
      (fun _ => ChatOutcome.success "ok") false).result = "ok" := by decide
  rw [h2] at h
  exact absurd h (by decide)

/-- C6, amended: every text whose whitespace-stripped form is strictly
longer than the configured maximum of 1000 characters is rejected with the
length-specific message naming that maximum, and no chat-completion call is
made.  (An input longer than 1000 characters only because of surrounding
whitespace is not length-rejected, see the counterexample.) -/
theorem C6_amended_too_long (text : String) (oracle : Nat → ChatOutcome)
    (shutdown : Bool) (mr d : Nat) (h : 1000 < (pyStrip text).length) :
    process_text text oracle shutdown mr d = ⟨tooLongMsg 1000, 0, []⟩ := by
  have htext : text ≠ "" := by
    intro he
    rw [he] at h
    exact absurd h (by decide)
  have hstrip : pyStrip text ≠ "" := by
    intro he
    rw [he] at h
    exact absurd h (by decide)
  unfold process_text validate_input
  rw [if_neg htext, if_neg hstrip, if_pos h]

set_option maxRecDepth 100000 in
/-- C6, witness for the amended theorem at 1001 `a`s. -/
theorem C6_amended_too_long_witness :
    1000 < (pyStrip (String.mk (List.replicate 1001 'a'))).length ∧
    process_text (String.mk (List.replicate 1001 'a'))
        (fun _ => ChatOutcome.success "ok") false 3 1
      = ⟨tooLongMsg 1000, 0, []⟩ :=
  ⟨by decide,
   C6_amended_too_long (String.mk (List.replicate 1001 'a'))
     (fun _ => ChatOutcome.success "ok") false 3 1 (by decide)⟩

/-- C9: with a valid (non-empty after stripping, within-length) input
text, if the global shutdown flag is set when `process_text` reaches its
retry loop, the loop body never runs: zero chat-completion calls are made
and the fixed fallback message is returned. -/
theorem C9_shutdown_fallback (text : String) (oracle : Nat → ChatOutcome)
    (mr d : Nat) (hvalid : (validate_input text).1 = true) :
    process_text text oracle true mr d = ⟨troubleMsg, 0, []⟩ := by
  rw [process_text_valid text oracle true mr d hvalid]
  cases mr with
  | zero => rfl
  | succ mr' => simp [ptLoop]

/-- C9, witness at the concrete valid input `"hello"`. -/
theorem C9_shutdown_fallback_witness :
    (validate_input "hello").1 = true ∧
    process_text "hello" (fun _ => ChatOutcome.success "ok") true 3 1
      = ⟨troubleMsg, 0, []⟩ :=
  ⟨by decide,
   C9_shutdown_fallback "hello" (fun _ => ChatOutcome.success "ok") 3 1 (by decide)⟩

/-- C1, counterexample: a successful server `text_to_speech` call leaves
its temporary audio file on the filesystem after returning: starting from
an empty filesystem, `"tmp.mp3"` exists after the call. -/
theorem C1_counterexample :
    "tmp.mp3" ∉ ([] : List String) ∧
    "tmp.mp3" ∈ (text_to_speech [] "tmp.mp3" (TtsOutcome.ok "AAA")).2 := by
  constructor
  · simp
  · simp [text_to_speech]

/-- C1, amended: the CLI `speak_text` removes its temporary audio file on
every exit path (synthesis failure, empty synthesized file, read failure,
playback failure with or without a working fallback, and success), leaving
the filesystem as it found it; the server `text_to_speech`, by contrast,
creates its temporary file with `delete=False` and never removes it, so
the file is still present when the call returns, on both its paths. -/
theorem C1_amended_temp_cleanup :
    (∀ (text : String) (fs0 : List String) (tmp : String)
        (save : SaveOutcome) (rd : ReadOutcome) (play : PlayOutcome),
      tmp ∉ fs0 → (speak_text text fs0 tmp save rd play).2 = fs0) ∧
    (∀ (fs0 : List String) (tmp : String) (o : TtsOutcome),
      tmp ∈ (text_to_speech fs0 tmp o).2) := by
  constructor
  · intro text fs0 tmp save rd play h
    have h1 : cleanupTemp fs0 tmp = fs0 := by
      simp [cleanupTemp, h]
    have h2 : cleanupTemp (tmp :: fs0) tmp = fs0 := by
      simp [cleanupTemp]
    cases save <;> cases rd <;> cases play <;>
      (unfold speak_text; split <;> simp [h1, h2])
  · intro fs0 tmp o
    cases o <;> simp [text_to_speech]

/-- C1, witness for the amended theorem: a concrete `speak_text` run (save
ok, read ok, playback ok) restores the filesystem `["a"]`, and a concrete
failing `text_to_speech` run leaves `"t"` behind. -/
theorem C1_amended_temp_cleanup_witness :
    ("t" ∉ (["a"] : List String)) ∧
    (speak_text "hi" ["a"] "t" SaveOutcome.ok ReadOutcome.ok PlayOutcome.sdOk).2
      = ["a"] ∧
    "t" ∈ (text_to_speech [] "t" TtsOutcome.fail).2 :=
  ⟨by decide,
   C1_amended_temp_cleanup.1 "hi" ["a"] "t" SaveOutcome.ok ReadOutcome.ok
     PlayOutcome.sdOk (by decide),
   C1_amended_temp_cleanup.2 [] "t" TtsOutcome.fail⟩

/-- C2, counterexample: a received message whose processing raises outside
the audio block — here a message that is not valid JSON, so `json.loads`
raises — is not converted into an error message on the channel (nothing is
sent) and the channel does not remain open: the outer handler closes it.
(It does remain in the connection set, which the claim also did not
predict for this path: only a disconnect erases it.) -/
theorem C2_counterexample :
    (websocket_step 0 ⟨[0], true⟩ WsEvent.invalidJson (AudioOutcome.ok "")
        (fun _ => "") (fun _ => none)).sent = [] ∧
    (websocket_step 0 ⟨[0], true⟩ WsEvent.invalidJson (AudioOutcome.ok "")
        (fun _ => "") (fun _ => none)).state.isOpen = false ∧
    (websocket_step 0 ⟨[0], true⟩ WsEvent.invalidJson (AudioOutcome.ok "")
        (fun _ => "") (fun _ => none)).state.connections = [0] := by
  refine ⟨rfl, rfl, rfl⟩

/-- C2, amended: an exception raised inside the audio-processing block is
caught and converted into an error message on the same channel, which
stays open and stays in the connection set; but an exception elsewhere in
message processing (a JSON parse error) reaches the generic outer handler,
which closes the channel without sending anything and without removing it
from the set; an explicit disconnect signal removes the channel from the
set. -/
theorem C2_amended_error_policy :
    (∀ (ch : Nat) (st : WsState) (m : MsgData) (e : String) (called : Bool)
        (chat : String → String) (tts : String → Option String) (a : String),
      m.type_ = some "audio" → m.audio = some a → a ≠ "" →
      (websocket_step ch st (WsEvent.msg m) (AudioOutcome.fail e called) chat tts).sent
          = [OutMsg.errorMsg ("Error processing audio: " ++ e)] ∧
      (websocket_step ch st (WsEvent.msg m) (AudioOutcome.fail e called) chat tts).state
          = st) ∧
    (∀ (ch : Nat) (st : WsState) (ao : AudioOutcome) (chat : String → String)
        (tts : String → Option String),
      websocket_step ch st WsEvent.invalidJson ao chat tts
        = ⟨⟨st.connections, false⟩, [], 0⟩) ∧
    (∀ (ch : Nat) (st : WsState) (ao : AudioOutcome) (chat : String → String)
        (tts : String → Option String),
      websocket_step ch st WsEvent.disconnect ao chat tts
        = ⟨⟨st.connections.erase ch, false⟩, [], 0⟩) := by
  refine ⟨?_, fun ch st ao chat tts => rfl, fun ch st ao chat tts => rfl⟩
  intro ch st m e called chat tts a htype haudio hne
  constructor <;> simp [websocket_step, htype, haudio, hne]

/-- C2, witness for the amended theorem on concrete inputs. -/
theorem C2_amended_error_policy_witness :
    ((websocket_step 0 ⟨[0], true⟩
        (WsEvent.msg ⟨some "audio", none, some "QUJD"⟩)
        (AudioOutcome.fail "boom" true) (fun _ => "") (fun _ => none)).sent
      = [OutMsg.errorMsg ("Error processing audio: " ++ "boom")] ∧
     (websocket_step 0 ⟨[0], true⟩
        (WsEvent.msg ⟨some "audio", none, some "QUJD"⟩)
        (AudioOutcome.fail "boom" true) (fun _ => "") (fun _ => none)).state
      = ⟨[0], true⟩) ∧
    websocket_step 0 ⟨[0], true⟩ WsEvent.disconnect (AudioOutcome.ok "")
        (fun _ => "") (fun _ => none)
      = ⟨⟨([0] : List Nat).erase 0, false⟩, [], 0⟩ :=
  ⟨C2_amended_error_policy.1 0 ⟨[0], true⟩ ⟨some "audio", none, some "QUJD"⟩
     "boom" true (fun _ => "") (fun _ => none) "QUJD" rfl rfl (by decide),
   C2_amended_error_policy.2.2 0 ⟨[0], true⟩ (AudioOutcome.ok "")
     (fun _ => "") (fun _ => none)⟩

/-- C7: a WebSocket message of type `"audio"` whose `audio` field is
missing or empty is answered with exactly the error message
`"No audio data received"`, the state is unchanged, and no transcription
call is made. -/
theorem C7_no_audio_error (ch : Nat) (st : WsState) (ao : AudioOutcome)
    (chat : String → String) (tts : String → Option String) (m : MsgData)
    (htype : m.type_ = some "audio")
    (haudio : m.audio = none ∨ m.audio = some "") :
    websocket_step ch st (WsEvent.msg m) ao chat tts
      = ⟨st, [OutMsg.errorMsg "No audio data received"], 0⟩ := by
  rcases haudio with h | h <;> simp [websocket_step, htype, h]

/-- C7, witness at a concrete message with a missing audio field. -/
theorem C7_no_audio_error_witness :
    websocket_step 0 ⟨[0], true⟩ (WsEvent.msg ⟨some "audio", none, none⟩)
        (AudioOutcome.ok "t") (fun _ => "r") (fun _ => none)
      = ⟨⟨[0], true⟩, [OutMsg.errorMsg "No audio data received"], 0⟩ :=
  C7_no_audio_error 0 ⟨[0], true⟩ (AudioOutcome.ok "t") (fun _ => "r")
    (fun _ => none) ⟨some "audio", none, none⟩ rfl (Or.inl rfl)

/-- C8: whenever the CLI loop reaches a turn whose recognized text contains
an exit phrase (such as text equal to `"goodbye"`), the remaining trace of
the loop is exactly one listening attempt followed by the spoken farewell:
the loop terminates and no further listening attempt ever occurs, whatever
fuel, inputs, replies and error count remain. -/
theorem C8_exit_terminates (inputs : Nat → Option String)
    (replies : Nat → String) (fuel turn errs : Nat) (s : String)
    (hin : inputs turn = some s) (hne : s ≠ "")
    (hexit : hasExitPhrase s = true) :
    cli_loop inputs replies (fuel + 1) turn errs
      = [Ev.listen, Ev.speak farewellMsg] := by
  have hstep : cli_turn (inputs turn) (replies turn) errs
      = ([Ev.listen, Ev.speak farewellMsg], false, errs) := by
    rw [hin]
    simp [cli_turn, hne, hexit]
  simp [cli_loop, hstep]

/-- C8, witness: recognized text `"goodbye"` on the first turn gives the
trace `[listen, speak farewell]`. -/
theorem C8_exit_terminates_witness :
    cli_loop (fun _ => some "goodbye") (fun _ => "r") 1 0 0
      = [Ev.listen, Ev.speak farewellMsg] :=
  C8_exit_terminates (fun _ => some "goodbye") (fun _ => "r") 0 0 0 "goodbye"
    rfl (by decide) (by decide)

end MindMate
